import Mathlib

/-!
Shallow embedding of the error-monitoring pipeline in `src/index.ts`
(Cloudflare tail worker: dedup + two-stage AI summary + Slack webhook).

External host services (the KV store, the AI binding, `fetch`, and
`crypto.subtle.digest`) are modelled as fields of an `Env` record of
deterministic functions returning `Except`, a throw being `.error`.
Observable interactions (console output, KV reads/writes, inference
calls, webhook posts) are collected into an explicit `Effect` trace.
JavaScript `Date` timestamp values are modelled as `Option Int`
(milliseconds since the epoch; `none` stands for any value that yields
an Invalid Date, e.g. `undefined` or `NaN`), since
`Date.prototype.toISOString` throws a RangeError exactly on Invalid
Date, i.e. when the value is absent/NaN or out of the ±8.64e15 ms range.
-/

namespace ErrorMonitor

/-- `const ERROR_WINDOW = 60 * 60;` — dedup suppression window in seconds. -/
def ERROR_WINDOW : Nat := 60 * 60

/-- JavaScript string coercion of a possibly-`undefined` string value:
`String(undefined)` (as happens in template literals and in
`RegExp.prototype.test`) is the literal string `"undefined"`. -/
def jsStringCoerce : Option String → String
  | some s => s
  | none => "undefined"

/- ### The IGNORE_PATTERNS regular expressions

The three regexes are all anchored (`^...$`) and simple enough to be
translated into direct character-list matchers. -/

/-- Strip `pre` from the front of `s`, returning the remainder, or `none`
if `pre` is not a prefix of `s`. -/
def stripPrefixChars : List Char → List Char → Option (List Char)
  | [], s => some s
  | _ :: _, [] => none
  | p :: ps, c :: cs => if p = c then stripPrefixChars ps cs else none

/-- `/^favicon\.[^/]+$/` : the whole string is `favicon.` followed by one
or more non-`/` characters. -/
def faviconTest (u : List Char) : Bool :=
  match stripPrefixChars "favicon.".data u with
  | some rest => !rest.isEmpty && rest.all (· ≠ '/')
  | none => false

/-- `/^robots\.txt$/` : the whole string is exactly `robots.txt`. -/
def robotsTest (u : List Char) : Bool :=
  u = "robots.txt".data

/-- `/^apple-[^/]+\.png$/` : the whole string is `apple-`, then one or
more non-`/` characters, then `.png` (the `$`-anchored `\.png` must be
the final four characters, and `[^/]+` covers everything in between). -/
def appleTest (u : List Char) : Bool :=
  match stripPrefixChars "apple-".data u with
  | some rest =>
      decide (4 < rest.length) &&
      rest.drop (rest.length - 4) = ".png".data &&
      (rest.take (rest.length - 4)).all (· ≠ '/')
  | none => false

/-- `IGNORE_PATTERNS.some(pattern => pattern.test(u))` for a string `u`. -/
def ignorePatternsTest (u : String) : Bool :=
  faviconTest u.data || robotsTest u.data || appleTest u.data

/-- `IGNORE_PATTERNS.some(pattern => pattern.test(context.url))` —
`context.url` may be `undefined`, which `RegExp.test` coerces to the
string `"undefined"`. -/
def shouldIgnore (url : Option String) : Bool :=
  ignorePatternsTest (jsStringCoerce url)

/- ### Date.prototype.toISOString -/

/-- Left-pad the decimal rendering of `n` with zeros to `width` digits. -/
def padZeros (width : Nat) (n : Nat) : String :=
  let s := toString n
  String.mk (List.replicate (width - s.length) '0') ++ s

/-- Proleptic-Gregorian civil date from days since the Unix epoch
(Howard Hinnant's `civil_from_days`): year, month (1–12), day (1–31). -/
def civilFromDays (z : Int) : Int × Nat × Nat :=
  let z' := z + 719468
  let era : Int := z'.fdiv 146097
  let doe : Nat := (z' - era * 146097).toNat
  let yoe : Nat := (doe - doe / 1460 + doe / 36524 - doe / 146096) / 365
  let y : Int := (yoe : Int) + era * 400
  let doy : Nat := doe - (365 * yoe + yoe / 4 - yoe / 100)
  let mp : Nat := (5 * doy + 2) / 153
  let d : Nat := doy - (153 * mp + 2) / 5 + 1
  let m : Nat := if mp < 10 then mp + 3 else mp - 9
  (if m ≤ 2 then y + 1 else y, m, d)

/-- ECMA-262 `Date.prototype.toISOString` rendering of a valid
millisecond timestamp: `YYYY-MM-DDTHH:mm:ss.sssZ`, with the expanded
`±YYYYYY` year form outside 0000–9999. -/
def isoRender (ms : Int) : String :=
  let days : Int := ms.fdiv 86400000
  let msOfDay : Nat := (ms.fmod 86400000).toNat
  let ymd := civilFromDays days
  let y := ymd.1
  let m := ymd.2.1
  let d := ymd.2.2
  let yearStr :=
    if 0 ≤ y ∧ y ≤ 9999 then padZeros 4 y.toNat
    else if y < 0 then "-" ++ padZeros 6 (-y).toNat
    else "+" ++ padZeros 6 y.toNat
  yearStr ++ "-" ++ padZeros 2 m ++ "-" ++ padZeros 2 d ++ "T" ++
    padZeros 2 (msOfDay / 3600000) ++ ":" ++
    padZeros 2 (msOfDay / 60000 % 60) ++ ":" ++
    padZeros 2 (msOfDay / 1000 % 60) ++ "." ++
    padZeros 3 (msOfDay % 1000) ++ "Z"

/-- `new Date(t).toISOString()`: throws a RangeError when `t` is an
Invalid Date (absent/NaN, or out of the ±8,640,000,000,000,000 ms
ECMAScript time range), otherwise yields the ISO-8601 rendering. -/
def jsToISOString (t : Option Int) : Except String String :=
  match t with
  | some ms =>
      if ms.natAbs ≤ 8640000000000000 then .ok (isoRender ms)
      else .error "RangeError: Invalid time value"
  | none => .error "RangeError: Invalid time value"

/- ### Raw tail events and the extracted context -/

/-- One entry of `event.logs`: `{timestamp, level, message}`. -/
structure TailLog where
  timestamp : Option Int
  level : String
  message : String
  deriving DecidableEq

/-- One entry of `event.exceptions`: `{name, message}`. -/
structure TailException where
  name : String
  message : String
  deriving DecidableEq

/-- `event.event.request`: the originating request, with optional
`url` and `method`. -/
structure TailRequest where
  url : Option String
  method : Option String
  deriving DecidableEq

/-- `event.event`: the inner trigger event, optionally carrying a
request (`event.event?.request`). -/
structure TailInner where
  request : Option TailRequest
  deriving DecidableEq

/-- A raw tail event as consumed by the worker: outcome tag, occurrence
timestamp, script name, optional inner event, optional logs and
exceptions (`event.logs || []`, `event.exceptions || []`). -/
structure TailEvent where
  outcome : String
  eventTimestamp : Option Int
  scriptName : String
  event : Option TailInner
  logs : Option (List TailLog)
  exceptions : Option (List TailException)
  deriving DecidableEq

/-- The extracted `ErrorContext` record. -/
structure ErrorContext where
  timestamp : String
  scriptName : String
  url : Option String
  method : Option String
  logs : String
  exceptions : String
  deriving DecidableEq

/-- The lines of `formatLogs`, left to right; the first invalid log
timestamp throws, as `new Date(log.timestamp).toISOString()` does. -/
def formatLogsLines : List TailLog → Except String (List String)
  | [] => .ok []
  | log :: rest => do
      let iso ← jsToISOString log.timestamp
      let others ← formatLogsLines rest
      pure ((iso ++ " [" ++ log.level ++ "] " ++ log.message) :: others)

/-- `formatLogs(logs)` — one `timestamp [level] message` line per entry,
joined with newlines (empty list yields the empty string). -/
def formatLogs (logs : List TailLog) : Except String String :=
  (formatLogsLines logs).map (String.intercalate "\n")

/-- `formatExceptions(exceptions)` — one `name: message` line per entry,
joined with newlines. -/
def formatExceptions (exceptions : List TailException) : String :=
  String.intercalate "\n" (exceptions.map (fun ex => ex.name ++ ": " ++ ex.message))

/-- `extractContext(event)`. Field access on the optional parts is
defensive (`event.event?.request?.url`), but the two
`new Date(...).toISOString()` calls (on `event.eventTimestamp` and, via
`formatLogs`, on each `log.timestamp`) throw on invalid values, in
source order: the outer timestamp is evaluated first. -/
def extractContext (event : TailEvent) : Except String ErrorContext := do
  let ts ← jsToISOString event.eventTimestamp
  let logsStr ← formatLogs (event.logs.getD [])
  pure
    { timestamp := ts
      scriptName := event.scriptName
      url := (event.event.bind (·.request)).bind (·.url)
      method := (event.event.bind (·.request)).bind (·.method)
      logs := logsStr
      exceptions := formatExceptions (event.exceptions.getD []) }

/- ### JSON.stringify of the errorDetails object -/

/-- `JSON.stringify` escaping of a single character inside a string
literal: `"` and `\` are backslash-escaped, the named control escapes
are used for backspace/tab/newline/form-feed/carriage-return, other
control characters become `\uXXXX`. -/
def jsonEscapeChar (c : Char) : String :=
  if c = '"' then "\\\""
  else if c = '\\' then "\\\\"
  else if c = '\x08' then "\\b"
  else if c = '\t' then "\\t"
  else if c = '\n' then "\\n"
  else if c = '\x0c' then "\\f"
  else if c = '\x0d' then "\\r"
  else if c.toNat < 32 then
    "\\u00" ++ String.mk [Nat.digitChar (c.toNat / 16), Nat.digitChar (c.toNat % 16)]
  else String.singleton c

/-- A `JSON.stringify` string literal. -/
def jsonQuote (s : String) : String :=
  "\"" ++ String.join (s.data.map jsonEscapeChar) ++ "\""

/-- `JSON.stringify(errorDetails)` for
`{scriptName, exceptions, url, method}`: keys in insertion order, and a
property whose value is `undefined` (an absent `url`/`method`) is
omitted, per `JSON.stringify` semantics. -/
def errorDetailsText (context : ErrorContext) : String :=
  let base := "\x7b\"scriptName\":" ++ jsonQuote context.scriptName ++
    ",\"exceptions\":" ++ jsonQuote context.exceptions
  let withUrl :=
    match context.url with
    | some u => base ++ ",\"url\":" ++ jsonQuote u
    | none => base
  let withMethod :=
    match context.method with
    | some m => withUrl ++ ",\"method\":" ++ jsonQuote m
    | none => withUrl
  withMethod ++ "\x7d"

/-- `new TextEncoder().encode` of one character: UTF-8 bytes. -/
def utf8EncodeChar (c : Char) : List Nat :=
  let n := c.toNat
  if n < 0x80 then [n]
  else if n < 0x800 then [0xC0 + n / 0x40, 0x80 + n % 0x40]
  else if n < 0x10000 then
    [0xE0 + n / 0x1000, 0x80 + n / 0x40 % 0x40, 0x80 + n % 0x40]
  else
    [0xF0 + n / 0x40000, 0x80 + n / 0x1000 % 0x40, 0x80 + n / 0x40 % 0x40, 0x80 + n % 0x40]

/-- `new TextEncoder().encode(text)`: the UTF-8 byte sequence. -/
def utf8Encode (s : String) : List Nat :=
  (s.data.map utf8EncodeChar).flatten

/-- `b.toString(16).padStart(2, '0')` for a byte `b < 256`: two
lowercase hex digits. -/
def byteToHex (b : Nat) : String :=
  String.mk [Nat.digitChar (b / 16 % 16), Nat.digitChar (b % 16)]

/- ### The host environment and the effect trace -/

/-- A `fetch` `Response`: only the status code is consulted
(`response.ok` and `response.status`). -/
structure FetchResponse where
  status : Nat
  deriving DecidableEq

/-- The worker's external world: the `crypto.subtle.digest('SHA-256',·)`
primitive, the `ERROR_DEDUP_KV` binding (`get`/`put` with TTL), the `AI`
binding (`run(model, …)` with the user-message content), the configured
`SLACK_WEBHOOK_URL`, and `fetch` of a POST (url, body). Each host call
is a deterministic function; a rejected promise / thrown exception is an
`.error` carrying its message. -/
structure Env where
  digest : List Nat → Except String (List Nat)
  kvGet : String → Except String (Option String)
  kvPut : String → String → Nat → Except String Unit
  aiRun : String → String → Except String String
  slackWebhookUrl : String
  fetchPost : String → String → Except String FetchResponse

/-- One observable interaction of the pipeline. -/
inductive Effect where
  | consoleLog (msg : String)
  | consoleError (msg : String)
  | kvGet (key : String)
  | kvPut (key : String) (value : String) (ttlSeconds : Nat)
  | aiRun (model : String)
  | fetchPost (url : String)
  deriving DecidableEq

/-- Is this effect an inference call? -/
def Effect.isAiRun : Effect → Bool
  | .aiRun _ => true
  | _ => false

/-- Is this effect a webhook POST? -/
def Effect.isFetchPost : Effect → Bool
  | .fetchPost _ => true
  | _ => false

/-- Is this effect a dedup-store write? -/
def Effect.isKvPut : Effect → Bool
  | .kvPut _ _ _ => true
  | _ => false

/-- Is this effect a dedup-store read? -/
def Effect.isKvGet : Effect → Bool
  | .kvGet _ => true
  | _ => false

/-- Is this effect a `console.error`? -/
def Effect.isConsoleError : Effect → Bool
  | .consoleError _ => true
  | _ => false

/- ### The pipeline components -/

/-- `generateErrorHash(context)`: serialize
`{scriptName, exceptions, url, method}` with `JSON.stringify`, UTF-8
encode, digest with SHA-256 (`crypto.subtle`, a host primitive that can
fail), and render each byte as two lowercase hex digits. -/
def generateErrorHash (env : Env) (context : ErrorContext) : Except String String :=
  (env.digest (utf8Encode (errorDetailsText context))).map
    (fun hashArray => String.join (hashArray.map byteToHex))

/-- `checkDuplicateError(errorHash, env)`: KV lookup; present means
duplicate; a thrown lookup is caught, logged, and treated as
not-a-duplicate (fail-open). Returns the boolean and the effects. -/
def checkDuplicateError (env : Env) (errorHash : String) : Bool × List Effect :=
  match env.kvGet errorHash with
  | .ok stored => (stored.isSome, [.kvGet errorHash])
  | .error e => (false, [.kvGet errorHash, .consoleError ("Error checking duplicate: " ++ e)])

/-- `storeErrorHash(errorHash, env)`: KV put of `'true'` with
`expirationTtl: ERROR_WINDOW`; a thrown put is caught and logged. -/
def storeErrorHash (env : Env) (errorHash : String) : List Effect :=
  match env.kvPut errorHash "true" ERROR_WINDOW with
  | .ok _ => [.kvPut errorHash "true" ERROR_WINDOW]
  | .error e => [.kvPut errorHash "true" ERROR_WINDOW, .consoleError ("Error storing hash: " ++ e)]

/-- `createAIPrompt(context)` — the stage-1 analysis prompt; the
`${...}` interpolations coerce an `undefined` url/method to the string
`"undefined"`. -/
def createAIPrompt (context : ErrorContext) : String :=
  "Analyze this error and provide a concise summary explaining what went wrong and potential causes. Also think about what the developer could do to fix this error. Include any relevant context from the logs.\n\nContext:\nScript: " ++
    context.scriptName ++ "\nURL: " ++ jsStringCoerce context.url ++
    "\nMethod: " ++ jsStringCoerce context.method ++ "\nTime: " ++ context.timestamp ++
    "\n\nExceptions:\n" ++ context.exceptions ++ "\n\nLogs:\n" ++ context.logs

/-- The stage-1 model identifier. -/
def analysisModel : String := "@cf/deepseek-ai/deepseek-r1-distill-qwen-32b"

/-- The stage-2 model identifier. -/
def summaryModel : String := "@cf/meta/llama-3.3-70b-instruct-fp8-fast"

/-- The stage-2 condensation prompt wrapping the stage-1 response. -/
def summaryPromptFor (analysisResponse : String) : String :=
  "Create a clear, concise summary (2-3 sentences max) of this error analysis and the suggested fix. Focus on the key problem and likely cause:\n\n" ++
    analysisResponse

/-- The fixed fallback summary. -/
def fallbackSummary : String := "Unable to generate AI analysis"

/-- `generateErrorSummary(context, env)`: two chained `env.AI.run`
calls; any error from either is caught, logged, and replaced by the
fixed fallback string. Returns the summary and the effects. -/
def generateErrorSummary (env : Env) (context : ErrorContext) : String × List Effect :=
  match env.aiRun analysisModel (createAIPrompt context) with
  | .error e =>
      (fallbackSummary, [.aiRun analysisModel,
        .consoleError ("Error generating AI summary: " ++ e)])
  | .ok analysisResponse =>
      match env.aiRun summaryModel (summaryPromptFor analysisResponse) with
      | .error e =>
          (fallbackSummary, [.aiRun analysisModel, .aiRun summaryModel,
            .consoleError ("Error generating AI summary: " ++ e)])
      | .ok summaryResponse =>
          (summaryResponse, [.aiRun analysisModel, .aiRun summaryModel])

/- ### The Slack message

The source builds a nested JS object and its only consumer,
`sendToSlack`, immediately applies `JSON.stringify`; each block builder
is therefore modelled directly by the `JSON.stringify` rendering of the
object it returns (keys in insertion order). -/

/-- `createHeaderBlock(context)`. -/
def createHeaderBlock (context : ErrorContext) : String :=
  "\x7b\"type\":\"header\",\"text\":\x7b\"type\":\"plain_text\",\"text\":" ++
    jsonQuote ("⚠️ Error in " ++ context.scriptName) ++ ",\"emoji\":true\x7d\x7d"

/-- `createAIAnalysisBlock(aiSummary)`. -/
def createAIAnalysisBlock (aiSummary : String) : String :=
  "\x7b\"type\":\"section\",\"text\":\x7b\"type\":\"mrkdwn\",\"text\":" ++
    jsonQuote ("*AI Analysis:*\n" ++ aiSummary) ++ "\x7d\x7d"

/-- `createContextBlock(context)` — `context.url || 'N/A'` also maps an
empty string to `'N/A'` (falsy), not only `undefined`. -/
def createContextBlock (context : ErrorContext) : String :=
  let urlText := match context.url with
    | some u => if u = "" then "N/A" else u
    | none => "N/A"
  let methodText := match context.method with
    | some m => if m = "" then "N/A" else m
    | none => "N/A"
  "\x7b\"type\":\"section\",\"fields\":[\x7b\"type\":\"mrkdwn\",\"text\":" ++
    jsonQuote ("*URL:*\n" ++ urlText) ++ "\x7d,\x7b\"type\":\"mrkdwn\",\"text\":" ++
    jsonQuote ("*Method:*\n" ++ methodText) ++ "\x7d,\x7b\"type\":\"mrkdwn\",\"text\":" ++
    jsonQuote ("*Time:*\n" ++ context.timestamp) ++ "\x7d]\x7d"

/-- `createExceptionBlock(context)`. -/
def createExceptionBlock (context : ErrorContext) : String :=
  "\x7b\"type\":\"section\",\"text\":\x7b\"type\":\"mrkdwn\",\"text\":" ++
    jsonQuote ("*Exception Details:*\n```" ++ context.exceptions ++ "```") ++ "\x7d\x7d"

/-- `formatSlackMessage(context, aiSummary)`, rendered as the
`JSON.stringify` body that `sendToSlack` posts. -/
def formatSlackMessage (context : ErrorContext) (aiSummary : String) : String :=
  "\x7b\"username\":\"Error Monitor\",\"icon_emoji\":\":robot_face:\",\"blocks\":[" ++
    createHeaderBlock context ++ "," ++ createAIAnalysisBlock aiSummary ++ "," ++
    createContextBlock context ++ "," ++ createExceptionBlock context ++ "]\x7d"

/-- `sendToSlack(message, env)`: POST the JSON body; a non-ok status
(`response.ok` is `200 ≤ status ≤ 299`) raises inside the `try` and is
caught and logged together with any network-level throw. Never
propagates. -/
def sendToSlack (env : Env) (message : String) : List Effect :=
  match env.fetchPost env.slackWebhookUrl message with
  | .ok response =>
      if 200 ≤ response.status ∧ response.status ≤ 299 then
        [.fetchPost env.slackWebhookUrl]
      else
        [.fetchPost env.slackWebhookUrl,
          .consoleError ("Error sending to Slack: Error: Slack API responded with status: " ++
            toString response.status)]
  | .error e =>
      [.fetchPost env.slackWebhookUrl, .consoleError ("Error sending to Slack: " ++ e)]

/- ### The orchestrator -/

/-- The loop body of `tail` for one event: the effect trace produced,
and `some err` when an uncaught exception (invalid date in
`extractContext`, or a `crypto.subtle.digest` failure in
`generateErrorHash`) escapes — there is no `try` around the body, so
such an error propagates out of the loop. -/
def processEvent (env : Env) (event : TailEvent) : List Effect × Option String :=
  if event.outcome = "exception" then
    match extractContext event with
    | .error err => ([], some err)
    | .ok context =>
        if shouldIgnore context.url then
          ([.consoleLog ("Ignoring URL: " ++ jsStringCoerce context.url)], none)
        else
          match generateErrorHash env context with
          | .error err => ([], some err)
          | .ok errorHash =>
              let dup := checkDuplicateError env errorHash
              if dup.1 then
                (dup.2 ++ [.consoleLog ("Duplicate error detected, hash: " ++ errorHash)], none)
              else
                let summary := generateErrorSummary env context
                (dup.2 ++ summary.2 ++
                  sendToSlack env (formatSlackMessage context summary.1) ++
                  storeErrorHash env errorHash, none)
  else ([], none)

/-- `tail(events, env)`: the sequential `for` loop over the batch. An
uncaught per-event exception aborts the whole loop — the remaining
events are not processed. Returns the accumulated trace and the escaped
error, if any. -/
def tail (env : Env) : List TailEvent → List Effect × Option String
  | [] => ([], none)
  | event :: rest =>
      match processEvent env event with
      | (tr, some err) => (tr, some err)
      | (tr, none) =>
          let rec' := tail env rest
          (tr ++ rec'.1, rec'.2)

/- ### Helper lemmas -/

theorem stripPrefixChars_append (p s : List Char) :
    stripPrefixChars p (p ++ s) = some s := by
  induction p with
  | nil => rfl
  | cons c cs ih => simp [stripPrefixChars, ih]

theorem stripPrefixChars_eq_some (p : List Char) :
    ∀ {s r : List Char}, stripPrefixChars p s = some r → s = p ++ r := by
  induction p with
  | nil =>
      intro s r h
      simp [stripPrefixChars] at h
      simp [h]
  | cons c cs ih =>
      intro s r h
      cases s with
      | nil => simp [stripPrefixChars] at h
      | cons a as =>
          by_cases hc : c = a
          · subst hc
            simp only [stripPrefixChars, if_pos rfl] at h
            simpa using ih h
          · simp [stripPrefixChars, hc] at h

theorem exceptIsOk_exists {α : Type} {x : Except String α} (h : x.isOk = true) :
    ∃ a, x = .ok a := by
  cases x with
  | ok a => exact ⟨a, rfl⟩
  | error e => simp [Except.isOk, Except.toBool] at h

/-- A nonempty string has a nonempty character list. -/
theorem string_data_ne_nil {s : String} (h : s ≠ "") : s.data ≠ [] := by
  intro hd
  apply h
  cases s
  simp_all

/-- `generateErrorSummary` always performs at least one inference call. -/
theorem generateErrorSummary_calls_ai (env : Env) (context : ErrorContext) :
    (generateErrorSummary env context).2.any Effect.isAiRun = true := by
  unfold generateErrorSummary
  cases h1 : env.aiRun analysisModel (createAIPrompt context) with
  | error e => simp [Effect.isAiRun]
  | ok r =>
      cases h2 : env.aiRun summaryModel (summaryPromptFor r) with
      | error e => simp [h2, Effect.isAiRun]
      | ok s => simp [h2, Effect.isAiRun]

/-- `sendToSlack` always performs the webhook POST. -/
theorem sendToSlack_posts (env : Env) (message : String) :
    (sendToSlack env message).any Effect.isFetchPost = true := by
  unfold sendToSlack
  cases env.fetchPost env.slackWebhookUrl message with
  | error e => simp [Effect.isFetchPost]
  | ok r =>
      by_cases h : 200 ≤ r.status ∧ r.status ≤ 299 <;>
        simp [h, Effect.isFetchPost]

/-- `storeErrorHash` always issues the KV put with the 3600 s TTL. -/
theorem storeErrorHash_puts (env : Env) (errorHash : String) :
    Effect.kvPut errorHash "true" 3600 ∈ storeErrorHash env errorHash := by
  unfold storeErrorHash
  have hw : ERROR_WINDOW = 3600 := rfl
  cases env.kvPut errorHash "true" ERROR_WINDOW with
  | ok u => simp [hw]
  | error e => simp [hw]

/-- When the status is never 2xx (and any throw is allowed),
`sendToSlack` logs a delivery error. -/
theorem sendToSlack_logs_failure (env : Env) (message : String)
    (hpost : ∀ u b r, env.fetchPost u b = .ok r → ¬(200 ≤ r.status ∧ r.status ≤ 299)) :
    (sendToSlack env message).any Effect.isConsoleError = true := by
  unfold sendToSlack
  cases hfp : env.fetchPost env.slackWebhookUrl message with
  | error e => simp [Effect.isConsoleError]
  | ok r =>
      have := hpost env.slackWebhookUrl message r hfp
      simp [this, Effect.isConsoleError]

/-- As long as context extraction and the hashing primitive succeed, a
single event's processing never throws: every other stage catches its
own failures. -/
theorem processEvent_no_throw (env : Env) (event : TailEvent)
    (hext : event.outcome = "exception" → (extractContext event).isOk = true)
    (hdig : ∀ bs, (env.digest bs).isOk = true) :
    (processEvent env event).2 = none := by
  unfold processEvent
  by_cases hout : event.outcome = "exception"
  · obtain ⟨context, hctx⟩ := exceptIsOk_exists (hext hout)
    obtain ⟨bytes, hb⟩ := exceptIsOk_exists (hdig (utf8Encode (errorDetailsText context)))
    have hhash : generateErrorHash env context =
        .ok (String.join (bytes.map byteToHex)) := by
      unfold generateErrorHash
      rw [hb]
      rfl
    rw [if_pos hout, hctx]
    by_cases hign : shouldIgnore context.url
    · simp [hign]
    · simp only [hign, if_neg, Bool.false_eq_true, not_false_iff, hhash]
      by_cases hdup : (checkDuplicateError env
          (String.join (bytes.map byteToHex))).1 <;> simp [hdup]
  · simp [hout]

/- ### Concrete fixtures for the witnesses and counterexamples -/

/-- A fully healthy environment: a stub digest returning the single
byte `0xab`, an empty dedup store, working AI and webhook. -/
def envW : Env where
  digest := fun _ => .ok [171]
  kvGet := fun _ => .ok none
  kvPut := fun _ _ _ => .ok ()
  aiRun := fun _ _ => .ok "It broke; fix it."
  slackWebhookUrl := "https://hooks.example/T000/B000"
  fetchPost := fun _ _ => .ok ⟨200⟩

/-- `envW` but the fingerprint is already present in the store. -/
def envDupW : Env :=
  { envW with kvGet := fun _ => .ok (some "true") }

/-- `envW` but every store lookup throws. -/
def envKvFailW : Env :=
  { envW with kvGet := fun _ => .error "KV get failed" }

/-- `envW` but the webhook answers HTTP 500. -/
def envPost500W : Env :=
  { envW with fetchPost := fun _ _ => .ok ⟨500⟩ }

/-- `envW` but every inference call rejects. -/
def envAiFailW : Env :=
  { envW with aiRun := fun _ _ => .error "inference failed" }

/-- The spec §8 example event: an exception in script `api` on
`POST /orders/42` with one `TypeError` and no logs. -/
def evtStd : TailEvent where
  outcome := "exception"
  eventTimestamp := some 0
  scriptName := "api"
  event := some ⟨some ⟨some "/orders/42", some "POST"⟩⟩
  logs := none
  exceptions := some [⟨"TypeError", "x is undefined"⟩]

/-- The context extracted from `evtStd`. -/
def ctxStd : ErrorContext where
  timestamp := "1970-01-01T00:00:00.000Z"
  scriptName := "api"
  url := some "/orders/42"
  method := some "POST"
  logs := ""
  exceptions := "TypeError: x is undefined"

/-- `ctxStd` with a different timestamp and different logs. -/
def ctxStdLater : ErrorContext :=
  { ctxStd with
      timestamp := "2023-11-14T22:13:20.000Z"
      logs := "2023-11-14T22:13:20.000Z [log] retrying" }

/-- `evtStd` with the url replaced by `favicon.ico`. -/
def evtFav : TailEvent :=
  { evtStd with event := some ⟨some ⟨some "favicon.ico", some "GET"⟩⟩ }

/-- `evtStd` with no inner event at all (no request url/method). -/
def evtNoUrl : TailEvent :=
  { evtStd with event := none }

/-- The context extracted from `evtNoUrl`. -/
def ctxNoUrl : ErrorContext :=
  { ctxStd with url := none, method := none }

/-- An event with a valid occurrence timestamp and every optional field
absent. -/
def evtBare : TailEvent where
  outcome := "exception"
  eventTimestamp := some 0
  scriptName := "api"
  event := none
  logs := none
  exceptions := none

/-- An event whose occurrence timestamp is an Invalid Date, so
`extractContext` throws on it. -/
def evtBadTime : TailEvent :=
  { evtStd with eventTimestamp := none }

/-- An event with a well-formed occurrence timestamp but one log entry
whose own timestamp is an Invalid Date, so `formatLogs` throws. -/
def evtBadLog : TailEvent :=
  { evtStd with logs := some [⟨none, "log", "about to crash"⟩] }

/- ### Characterizations of the pattern tests -/

theorem faviconTest_eq_true_iff (u : List Char) :
    faviconTest u = true ↔
      ∃ rest, stripPrefixChars "favicon.".data u = some rest ∧
        rest ≠ [] ∧ ∀ c ∈ rest, c ≠ '/' := by
  unfold faviconTest
  cases hsp : stripPrefixChars "favicon.".data u with
  | none => simp
  | some rest =>
      simp only [Bool.and_eq_true, Bool.not_eq_true', List.isEmpty_iff,
        List.all_eq_true, Option.some.injEq]
      constructor
      · rintro ⟨h1, h2⟩
        refine ⟨rest, rfl, ?_, fun c hc => by simpa using h2 c hc⟩
        intro hr
        rw [hr] at h1
        simp at h1
      · rintro ⟨r, hr, h1, h2⟩
        cases hr
        refine ⟨?_, fun c hc => by simpa using h2 c hc⟩
        cases rest with
        | nil => exact absurd rfl h1
        | cons a as => rfl

theorem appleTest_eq_true_iff (u : List Char) :
    appleTest u = true ↔
      ∃ rest, stripPrefixChars "apple-".data u = some rest ∧
        4 < rest.length ∧ rest.drop (rest.length - 4) = ".png".data ∧
        ∀ c ∈ rest.take (rest.length - 4), c ≠ '/' := by
  unfold appleTest
  cases hsp : stripPrefixChars "apple-".data u with
  | none => simp
  | some rest =>
      simp only [Bool.and_eq_true, decide_eq_true_eq, List.all_eq_true,
        Option.some.injEq]
      constructor
      · rintro ⟨⟨h1, h2⟩, h3⟩
        exact ⟨rest, rfl, h1, by simpa using h2, fun c hc => by simpa using h3 c hc⟩
      · rintro ⟨r, hr, h1, h2, h3⟩
        cases hr
        exact ⟨⟨h1, by simpa using h2⟩, fun c hc => by simpa using h3 c hc⟩

/-- A url that matches any of the three ignore patterns contains no
slash: the regexes are anchored and their variable parts are `[^/]+`. -/
theorem ignorePatternsTest_no_slash (u : String) (h : '/' ∈ u.data) :
    ignorePatternsTest u = false := by
  unfold ignorePatternsTest
  simp only [Bool.or_eq_false_iff]
  refine ⟨⟨?_, ?_⟩, ?_⟩
  · rw [Bool.eq_false_iff]
    intro htrue
    obtain ⟨rest, hsp, _, hall⟩ := (faviconTest_eq_true_iff u.data).mp htrue
    rw [stripPrefixChars_eq_some _ hsp] at h
    rcases List.mem_append.mp h with h1 | h2
    · exact absurd h1 (by decide)
    · exact hall '/' h2 rfl
  · rw [Bool.eq_false_iff]
    intro htrue
    unfold robotsTest at htrue
    rw [decide_eq_true_eq] at htrue
    rw [htrue] at h
    exact absurd h (by decide)
  · rw [Bool.eq_false_iff]
    intro htrue
    obtain ⟨rest, hsp, _, hdrop, hall⟩ := (appleTest_eq_true_iff u.data).mp htrue
    rw [stripPrefixChars_eq_some _ hsp] at h
    rcases List.mem_append.mp h with h1 | h2
    · exact absurd h1 (by decide)
    · rw [← List.take_append_drop (rest.length - 4) rest] at h2
      rcases List.mem_append.mp h2 with h3 | h4
      · exact hall '/' h3 rfl
      · rw [hdrop] at h4
        exact absurd h4 (by decide)

/-- Each of the urls named by the spec (and any `favicon.<ext>`)
matches the ignore patterns. -/
theorem ignorePatternsTest_of_target (u : String)
    (hu : u = "favicon.ico" ∨ u = "robots.txt" ∨ u = "apple-touch-icon.png" ∨
      ∃ ext, ext ≠ "" ∧ (∀ c ∈ ext.data, c ≠ '/') ∧ u = "favicon." ++ ext) :
    ignorePatternsTest u = true := by
  rcases hu with h | h | h | ⟨ext, hne, hext, h⟩
  · subst h; decide
  · subst h; decide
  · subst h; decide
  · subst h
    unfold ignorePatternsTest
    have hfav : faviconTest ("favicon." ++ ext).data = true := by
      rw [faviconTest_eq_true_iff]
      refine ⟨ext.data, ?_, string_data_ne_nil hne, hext⟩
      rw [String.data_append]
      exact stripPrefixChars_append _ _
    simp only [Bool.or_eq_true]
    exact Or.inl (Or.inl hfav)

/- ### Reductions of the orchestrator body -/

/-- For a non-ignored exception event whose fingerprint is a duplicate,
the loop body is the dedup lookup followed by the duplicate log. -/
theorem processEvent_dup_trace (env : Env) (event : TailEvent)
    (context : ErrorContext) (errorHash : String)
    (hout : event.outcome = "exception")
    (hctx : extractContext event = .ok context)
    (hign : shouldIgnore context.url = false)
    (hhash : generateErrorHash env context = .ok errorHash)
    (hdup : (checkDuplicateError env errorHash).1 = true) :
    processEvent env event =
      ((checkDuplicateError env errorHash).2 ++
        [.consoleLog ("Duplicate error detected, hash: " ++ errorHash)], none) := by
  simp [processEvent, hout, hctx, hign, hhash, hdup]

/-- For a non-ignored exception event whose fingerprint is not a
duplicate, the loop body is lookup, analysis, delivery, record. -/
theorem processEvent_not_dup_trace (env : Env) (event : TailEvent)
    (context : ErrorContext) (errorHash : String)
    (hout : event.outcome = "exception")
    (hctx : extractContext event = .ok context)
    (hign : shouldIgnore context.url = false)
    (hhash : generateErrorHash env context = .ok errorHash)
    (hdup : (checkDuplicateError env errorHash).1 = false) :
    processEvent env event =
      ((checkDuplicateError env errorHash).2 ++ (generateErrorSummary env context).2 ++
        sendToSlack env (formatSlackMessage context (generateErrorSummary env context).1) ++
        storeErrorHash env errorHash, none) := by
  simp [processEvent, hout, hctx, hign, hhash, hdup]

/-- Any failure of either inference stage yields the fixed fallback. -/
theorem generateErrorSummary_fallback (env : Env) (context : ErrorContext)
    (hai : (∃ e, env.aiRun analysisModel (createAIPrompt context) = .error e) ∨
      ∃ r e, env.aiRun analysisModel (createAIPrompt context) = .ok r ∧
        env.aiRun summaryModel (summaryPromptFor r) = .error e) :
    (generateErrorSummary env context).1 = "Unable to generate AI analysis" := by
  cases h1 : env.aiRun analysisModel (createAIPrompt context) with
  | error e => simp [generateErrorSummary, h1, fallbackSummary]
  | ok r =>
      rcases hai with ⟨e, he⟩ | ⟨r2, e, hr, he⟩
      · rw [h1] at he
        cases he
      · rw [h1] at hr
        cases Except.ok.inj hr
        simp [generateErrorSummary, h1, he, fallbackSummary]

/- ### The claims -/

/-- C1: `generateErrorHash` reads only `scriptName`, `exceptions`,
`url` and `method`; two contexts agreeing on those four fields produce
byte-identical fingerprint output, whatever their `timestamp` and
`logs`. -/
theorem generateErrorHash_excludes_timestamp_logs (env : Env) (c₁ c₂ : ErrorContext)
    (hs : c₁.scriptName = c₂.scriptName) (he : c₁.exceptions = c₂.exceptions)
    (hu : c₁.url = c₂.url) (hm : c₁.method = c₂.method) :
    generateErrorHash env c₁ = generateErrorHash env c₂ := by
  unfold generateErrorHash errorDetailsText
  rw [hs, he, hu, hm]

/-- C1 witness: `ctxStd` and `ctxStdLater` differ in timestamp and in
logs, yet their fingerprints coincide. -/
theorem generateErrorHash_excludes_timestamp_logs_witness :
    (ctxStd.timestamp ≠ ctxStdLater.timestamp ∧ ctxStd.logs ≠ ctxStdLater.logs) ∧
    generateErrorHash envW ctxStd = generateErrorHash envW ctxStdLater :=
  ⟨by decide,
    generateErrorHash_excludes_timestamp_logs envW ctxStd ctxStdLater rfl rfl rfl rfl⟩

/-- C2: when the fingerprint is already present in the dedup store, the
loop body performs only the lookup and the duplicate log — no inference
call, no webhook delivery, no store write. -/
theorem duplicate_only_logged (env : Env) (event : TailEvent) (context : ErrorContext)
    (errorHash v : String)
    (hout : event.outcome = "exception")
    (hctx : extractContext event = .ok context)
    (hign : shouldIgnore context.url = false)
    (hhash : generateErrorHash env context = .ok errorHash)
    (hget : env.kvGet errorHash = .ok (some v)) :
    processEvent env event =
      ([.kvGet errorHash,
        .consoleLog ("Duplicate error detected, hash: " ++ errorHash)], none) ∧
    (processEvent env event).1.all
      (fun eff => !eff.isAiRun && !eff.isFetchPost && !eff.isKvPut) = true := by
  constructor
  · simp [processEvent, hout, hctx, hign, hhash, checkDuplicateError, hget]
  · simp [processEvent, hout, hctx, hign, hhash, checkDuplicateError, hget,
      Effect.isAiRun, Effect.isFetchPost, Effect.isKvPut]

/-- C2 witness: the standard event against a store that already holds
its fingerprint. -/
theorem duplicate_only_logged_witness :
    processEvent envDupW evtStd =
      ([.kvGet "ab",
        .consoleLog ("Duplicate error detected, hash: " ++ "ab")], none) ∧
    (processEvent envDupW evtStd).1.all
      (fun eff => !eff.isAiRun && !eff.isFetchPost && !eff.isKvPut) = true :=
  duplicate_only_logged envDupW evtStd ctxStd "ab" "true"
    rfl rfl (by decide) rfl rfl

/-- C3: a throwing dedup lookup is caught — `checkDuplicateError`
returns false (fail-open) — and the pipeline goes on to run inference
and attempt the webhook delivery, without throwing. -/
theorem kv_failure_fail_open (env : Env) (event : TailEvent) (context : ErrorContext)
    (errorHash msg : String)
    (hout : event.outcome = "exception")
    (hctx : extractContext event = .ok context)
    (hign : shouldIgnore context.url = false)
    (hhash : generateErrorHash env context = .ok errorHash)
    (hget : env.kvGet errorHash = .error msg) :
    (checkDuplicateError env errorHash).1 = false ∧
    (processEvent env event).1.any Effect.isAiRun = true ∧
    (processEvent env event).1.any Effect.isFetchPost = true ∧
    (processEvent env event).2 = none := by
  have hdup1 : (checkDuplicateError env errorHash).1 = false := by
    simp [checkDuplicateError, hget]
  have h := processEvent_not_dup_trace env event context errorHash hout hctx hign hhash hdup1
  refine ⟨hdup1, ?_, ?_, by rw [h]⟩
  · rw [h]
    simp only [List.any_append, Bool.or_eq_true]
    exact Or.inl (Or.inl (Or.inr (generateErrorSummary_calls_ai env context)))
  · rw [h]
    simp only [List.any_append, Bool.or_eq_true]
    exact Or.inl (Or.inr (sendToSlack_posts env _))

/-- C3 witness: the standard event against a store whose every lookup
throws. -/
theorem kv_failure_fail_open_witness :
    (checkDuplicateError envKvFailW "ab").1 = false ∧
    (processEvent envKvFailW evtStd).1.any Effect.isAiRun = true ∧
    (processEvent envKvFailW evtStd).1.any Effect.isFetchPost = true ∧
    (processEvent envKvFailW evtStd).2 = none :=
  kv_failure_fail_open envKvFailW evtStd ctxStd "ab" "KV get failed"
    rfl rfl (by decide) rfl rfl

/-- C4: when the webhook POST yields a non-2xx status or throws, the
sink catches and logs the failure, the loop body does not throw, and
the fingerprint is still recorded with the 3600-second TTL. -/
theorem webhook_failure_still_records (env : Env) (event : TailEvent)
    (context : ErrorContext) (errorHash : String)
    (hout : event.outcome = "exception")
    (hctx : extractContext event = .ok context)
    (hign : shouldIgnore context.url = false)
    (hhash : generateErrorHash env context = .ok errorHash)
    (hget : env.kvGet errorHash = .ok none)
    (hpost : ∀ u b r, env.fetchPost u b = .ok r → ¬(200 ≤ r.status ∧ r.status ≤ 299)) :
    (∀ m, (sendToSlack env m).any Effect.isConsoleError = true) ∧
    (processEvent env event).2 = none ∧
    Effect.kvPut errorHash "true" 3600 ∈ (processEvent env event).1 := by
  have hdup1 : (checkDuplicateError env errorHash).1 = false := by
    simp [checkDuplicateError, hget]
  have h := processEvent_not_dup_trace env event context errorHash hout hctx hign hhash hdup1
  refine ⟨fun m => sendToSlack_logs_failure env m hpost, by rw [h], ?_⟩
  rw [h]
  simp only [List.mem_append]
  exact Or.inr (storeErrorHash_puts env errorHash)

/-- C4 witness: the standard event with a webhook answering HTTP 500. -/
theorem webhook_failure_still_records_witness :
    (∀ m, (sendToSlack envPost500W m).any Effect.isConsoleError = true) ∧
    (processEvent envPost500W evtStd).2 = none ∧
    Effect.kvPut "ab" "true" 3600 ∈ (processEvent envPost500W evtStd).1 :=
  webhook_failure_still_records envPost500W evtStd ctxStd "ab"
    rfl rfl (by decide) rfl rfl
    (by
      intro u b r hr
      have h5 := Except.ok.inj hr
      cases h5
      decide)

/-- C5: if either inference stage fails, `generateErrorSummary` returns
exactly the fixed fallback string without propagating the error, and
the pipeline still formats and attempts the webhook delivery. -/
theorem inference_failure_fallback (env : Env) (event : TailEvent)
    (context : ErrorContext) (errorHash : String)
    (hout : event.outcome = "exception")
    (hctx : extractContext event = .ok context)
    (hign : shouldIgnore context.url = false)
    (hhash : generateErrorHash env context = .ok errorHash)
    (hget : env.kvGet errorHash = .ok none)
    (hai : (∃ e, env.aiRun analysisModel (createAIPrompt context) = .error e) ∨
      ∃ r e, env.aiRun analysisModel (createAIPrompt context) = .ok r ∧
        env.aiRun summaryModel (summaryPromptFor r) = .error e) :
    (generateErrorSummary env context).1 = "Unable to generate AI analysis" ∧
    (processEvent env event).1.any Effect.isFetchPost = true ∧
    (processEvent env event).2 = none := by
  have hdup1 : (checkDuplicateError env errorHash).1 = false := by
    simp [checkDuplicateError, hget]
  have h := processEvent_not_dup_trace env event context errorHash hout hctx hign hhash hdup1
  refine ⟨generateErrorSummary_fallback env context hai, ?_, by rw [h]⟩
  rw [h]
  simp only [List.any_append, Bool.or_eq_true]
  exact Or.inl (Or.inr (sendToSlack_posts env _))

/-- C5 witness: the standard event with every inference call
rejecting. -/
theorem inference_failure_fallback_witness :
    (generateErrorSummary envAiFailW ctxStd).1 = "Unable to generate AI analysis" ∧
    (processEvent envAiFailW evtStd).1.any Effect.isFetchPost = true ∧
    (processEvent envAiFailW evtStd).2 = none :=
  inference_failure_fallback envAiFailW evtStd ctxStd "ab"
    rfl rfl (by decide) rfl rfl (Or.inl ⟨"inference failed", rfl⟩)

/-- C6: an exceptional event whose extracted url is exactly
`favicon.ico` (or `favicon.` with any extension), `robots.txt`, or
`apple-touch-icon.png` is dropped with only a log line, before any
fingerprinting: the loop body produces no digest, dedup-store,
inference, or webhook interaction. -/
theorem ignored_url_dropped_before_fingerprinting (env : Env) (event : TailEvent)
    (context : ErrorContext) (u : String)
    (hout : event.outcome = "exception")
    (hctx : extractContext event = .ok context)
    (hurl : context.url = some u)
    (hu : u = "favicon.ico" ∨ u = "robots.txt" ∨ u = "apple-touch-icon.png" ∨
      ∃ ext, ext ≠ "" ∧ (∀ c ∈ ext.data, c ≠ '/') ∧ u = "favicon." ++ ext) :
    processEvent env event = ([.consoleLog ("Ignoring URL: " ++ u)], none) := by
  have hig : shouldIgnore (some u) = true := ignorePatternsTest_of_target u hu
  simp [processEvent, hout, hctx, hurl, hig, jsStringCoerce]

/-- C6 witness: the standard event with url `favicon.ico` produces only
the ignore log. -/
theorem ignored_url_dropped_before_fingerprinting_witness :
    processEvent envW evtFav = ([.consoleLog ("Ignoring URL: " ++ "favicon.ico")], none) :=
  ignored_url_dropped_before_fingerprinting envW evtFav
    { ctxStd with url := some "favicon.ico", method := some "GET" } "favicon.ico"
    rfl rfl rfl (Or.inl rfl)

/-- C7 counterexample: in the batch `[evtBadTime, evtStd]` the first
event's context extraction throws (Invalid Date), the loop aborts, and
the second event — which on its own is fully processed (it reaches the
dedup lookup) — is never processed at all: its failure was not
contained to the single event. -/
theorem batch_not_isolated_counterexample :
    (tail envW [evtBadTime, evtStd]).1 = [] ∧
    (tail envW [evtBadTime, evtStd]).2 = some "RangeError: Invalid time value" ∧
    (tail envW [evtStd]).1.any Effect.isKvGet = true ∧
    (tail envW [evtStd]).2 = none := by
  refine ⟨rfl, rfl, ?_, rfl⟩
  decide

/-- C7 (amended): failures inside the dedup-store, inference, and
webhook stages are caught locally, so they never abort the batch: as
long as context extraction and the hashing primitive succeed for the
exceptional events, the loop processes every event of the batch in
order, whatever the store/AI/webhook do; but an extraction or hashing
throw aborts the remainder of the batch, not just the one event. -/
theorem tail_processes_all_events (env : Env) (events : List TailEvent)
    (hext : ∀ e ∈ events, e.outcome = "exception" → (extractContext e).isOk = true)
    (hdig : ∀ bs, (env.digest bs).isOk = true) :
    tail env events = ((events.map (fun e => (processEvent env e).1)).flatten, none) := by
  induction events with
  | nil => rfl
  | cons e rest ih =>
      have h1 : (processEvent env e).2 = none :=
        processEvent_no_throw env e (hext e (by simp)) hdig
      have ih2 := ih (fun x hx => hext x (by simp [hx]))
      cases hpe : processEvent env e with
      | mk tr err =>
          rw [hpe] at h1
          simp only at h1
          subst h1
          simp only [tail, hpe, ih2, List.map_cons, List.flatten_cons]

/-- C7 witness (for the amended claim): with a store whose every lookup
throws, both events of the batch are still processed, in order. -/
theorem tail_processes_all_events_witness :
    tail envKvFailW [evtStd, evtNoUrl] =
      (([evtStd, evtNoUrl].map (fun e => (processEvent envKvFailW e).1)).flatten, none) :=
  tail_processes_all_events envKvFailW [evtStd, evtNoUrl] (by decide) (fun _ => rfl)

/-- `formatLogsLines` succeeds when every log timestamp is valid. -/
theorem formatLogsLines_isOk (logs : List TailLog)
    (h : ∀ log ∈ logs, (jsToISOString log.timestamp).isOk = true) :
    ∃ lines, formatLogsLines logs = .ok lines := by
  induction logs with
  | nil => exact ⟨[], rfl⟩
  | cons log rest ih =>
      obtain ⟨iso, hiso⟩ := exceptIsOk_exists (h log (by simp))
      obtain ⟨lines, hlines⟩ := ih (fun l hl => h l (by simp [hl]))
      refine ⟨(iso ++ " [" ++ log.level ++ "] " ++ log.message) :: lines, ?_⟩
      rw [formatLogsLines, hiso, hlines]
      rfl

/-- C8 counterexample: a malformed optional subfield does make
`extractContext` throw — an event whose own timestamp is fine but whose
single log entry has an Invalid-Date timestamp makes the log formatting
(and hence extraction) throw a RangeError. -/
theorem extractContext_throws_counterexample :
    extractContext evtBadLog = .error "RangeError: Invalid time value" := rfl

/-- C8 (amended): context extraction succeeds for every raw event whose
occurrence timestamp and log-entry timestamps are valid date values:
missing optional fields (request url/method, logs, exceptions) resolve
to absent/empty values and formatting is a pure string-join yielding
the empty string on empty collections; but an Invalid-Date occurrence
or log timestamp makes `extractContext` throw
(`new Date(...).toISOString()` raises a RangeError). -/
theorem extractContext_total_on_valid_dates (event : TailEvent)
    (ht : (jsToISOString event.eventTimestamp).isOk = true)
    (hl : ∀ log ∈ event.logs.getD [], (jsToISOString log.timestamp).isOk = true) :
    ∃ context, extractContext event = .ok context ∧
      context.url = (event.event.bind (·.request)).bind (·.url) ∧
      context.method = (event.event.bind (·.request)).bind (·.method) ∧
      (event.event = none → context.url = none ∧ context.method = none) ∧
      (event.logs.getD [] = [] → context.logs = "") ∧
      (event.exceptions.getD [] = [] → context.exceptions = "") := by
  obtain ⟨ts, hts⟩ := exceptIsOk_exists ht
  obtain ⟨lines, hlines⟩ := formatLogsLines_isOk (event.logs.getD []) hl
  refine ⟨{ timestamp := ts
            scriptName := event.scriptName
            url := (event.event.bind (·.request)).bind (·.url)
            method := (event.event.bind (·.request)).bind (·.method)
            logs := String.intercalate "\n" lines
            exceptions := formatExceptions (event.exceptions.getD []) },
    ?_, rfl, rfl, ?_, ?_, ?_⟩
  · rw [extractContext, hts, formatLogs, hlines]
    rfl
  · intro h
    rw [h]
    exact ⟨rfl, rfl⟩
  · intro h
    rw [h] at hlines
    cases Except.ok.inj hlines
    rfl
  · intro h
    rw [h]
    rfl

/-- C8 witness (for the amended claim): an event with a valid timestamp
and every optional field missing extracts successfully to absent/empty
values. -/
theorem extractContext_total_on_valid_dates_witness :
    ∃ context, extractContext evtBare = .ok context ∧
      context.url = (evtBare.event.bind (·.request)).bind (·.url) ∧
      context.method = (evtBare.event.bind (·.request)).bind (·.method) ∧
      (evtBare.event = none → context.url = none ∧ context.method = none) ∧
      (evtBare.logs.getD [] = [] → context.logs = "") ∧
      (evtBare.exceptions.getD [] = [] → context.exceptions = "") :=
  extractContext_total_on_valid_dates evtBare (by decide) (by decide)

/-- C9: when the extracted url is absent, the noise filter treats the
event as non-matching (`RegExp.test` receives the coerced string
`"undefined"`, which matches no pattern) and the event continues down
the pipeline to the dedup lookup; nothing crashes. -/
theorem absent_url_not_dropped (env : Env) (event : TailEvent) (context : ErrorContext)
    (hout : event.outcome = "exception")
    (hctx : extractContext event = .ok context)
    (hurl : context.url = none)
    (hdig : ∀ bs, (env.digest bs).isOk = true) :
    shouldIgnore context.url = false ∧
    (processEvent env event).1.any Effect.isKvGet = true ∧
    (processEvent env event).2 = none := by
  have hig : shouldIgnore context.url = false := by
    rw [hurl]
    decide
  obtain ⟨bytes, hb⟩ := exceptIsOk_exists (hdig (utf8Encode (errorDetailsText context)))
  have hhash : generateErrorHash env context = .ok (String.join (bytes.map byteToHex)) := by
    unfold generateErrorHash
    rw [hb]
    rfl
  refine ⟨hig, ?_, processEvent_no_throw env event (fun _ => by rw [hctx]; rfl) hdig⟩
  by_cases hdup : (checkDuplicateError env (String.join (bytes.map byteToHex))).1
  · rw [processEvent_dup_trace env event context _ hout hctx hig hhash hdup]
    simp only [List.any_append, Bool.or_eq_true]
    refine Or.inl ?_
    unfold checkDuplicateError
    cases hget : env.kvGet (String.join (bytes.map byteToHex)) with
    | ok stored => simp [Effect.isKvGet]
    | error e => simp [Effect.isKvGet]
  · rw [processEvent_not_dup_trace env event context _ hout hctx hig hhash
      (Bool.eq_false_iff.mpr hdup)]
    simp only [List.any_append, Bool.or_eq_true]
    refine Or.inl (Or.inl (Or.inl ?_))
    unfold checkDuplicateError
    cases hget : env.kvGet (String.join (bytes.map byteToHex)) with
    | ok stored => simp [Effect.isKvGet]
    | error e => simp [Effect.isKvGet]

/-- C9 witness: the standard event with no request at all is not
dropped and reaches the dedup lookup. -/
theorem absent_url_not_dropped_witness :
    shouldIgnore ctxNoUrl.url = false ∧
    (processEvent envW evtNoUrl).1.any Effect.isKvGet = true ∧
    (processEvent envW evtNoUrl).2 = none :=
  absent_url_not_dropped envW evtNoUrl ctxNoUrl rfl rfl rfl (fun _ => rfl)

/-- C10 counterexample: `favicon.icox` — the bare filename
`favicon.ico` with one extra character appended, and equal to none of
the three bare filenames — is nevertheless dropped by the filter, so
characters added around a bare filename can still match and it is not
only urls exactly equal to a bare filename that are dropped. -/
theorem ignore_filter_matches_more_counterexample :
    shouldIgnore (some ("favicon.ico" ++ "x")) = true ∧
    "favicon.ico" ++ "x" ≠ "favicon.ico" ∧
    "favicon.ico" ++ "x" ≠ "robots.txt" ∧
    "favicon.ico" ++ "x" ≠ "apple-touch-icon.png" := by
  refine ⟨by decide, by decide, by decide, by decide⟩

/-- C10 (amended): every ignore pattern is anchored to the whole url
string and its variable parts exclude `/`, so a url containing a `/`
anywhere — in particular any full request URL or any path, such as
`https://host/favicon.ico` or `/robots.txt` — never matches the noise
filter; only a `/`-free url wholly matching one of the patterns
(`favicon.<ext>`, `robots.txt`, `apple-<name>.png`) is ever dropped,
though the `<ext>`/`<name>` parts need not equal the bare filenames
`favicon.ico` and `apple-touch-icon.png`. -/
theorem slashed_url_never_ignored (u : String) (h : '/' ∈ u.data) :
    shouldIgnore (some u) = false := by
  unfold shouldIgnore jsStringCoerce
  exact ignorePatternsTest_no_slash u h

/-- C10 witness (for the amended claim): the full URL
`https://host/favicon.ico` and the rooted path `/robots.txt` are not
dropped. -/
theorem slashed_url_never_ignored_witness :
    shouldIgnore (some "https://host/favicon.ico") = false ∧
    shouldIgnore (some "/robots.txt") = false :=
  ⟨slashed_url_never_ignored "https://host/favicon.ico" (by decide),
    slashed_url_never_ignored "/robots.txt" (by decide)⟩

end ErrorMonitor
